import Mathlib

/-!
Shallow embedding of the feature-map rendering engine of
`ysdc_dataset_api/features/rendering.py` (Shifts SDC dataset API), together
with theorems settling the specification claims about it.

Machine floats of the source are modelled as rationals; numpy arrays as
functions/lists; OpenCV rasterization primitives (external to the repository)
are parameters of the rendering functions, collected in `Externals`.
-/

/-- The constant `MAX_HISTORY_LENGTH` from rendering.py. -/
def MAX_HISTORY_LENGTH : ℤ := 25

/-- A pixel index pair (x, y) as handed to the rasterizer. -/
abbrev Pixel : Type := ℤ × ℤ

/-- One channel plane of the feature map: value at each pixel. -/
abbrev Plane : Type := Pixel → ℚ

/-- The data of a multi-channel feature map: channel index to plane. -/
abbrev FMData : Type := ℕ → Plane

/-- A 2D point with rational coordinates. -/
abbrev Point : Type := ℚ × ℚ

/-- A homogeneous 2D affine transform: linear part `[[a, b], [c, d]]` plus
translation `(tx, ty)`.  This is the 2D-relevant block of the 4x4 matrices
used in rendering.py (the z row and column are never consulted by
`transform_2d_points` / `transform_2d_vectors` on 2D data). -/
structure Affine2D where
  a : ℚ
  b : ℚ
  c : ℚ
  d : ℚ
  tx : ℚ
  ty : ℚ
deriving DecidableEq

/-- Modelled from the spec: `transform_2d_points` (utils, not under src/)
applies the full affine transform to a 2D point. -/
def transform_2d_point (m : Affine2D) (p : Point) : Point :=
  (m.a * p.1 + m.b * p.2 + m.tx, m.c * p.1 + m.d * p.2 + m.ty)

/-- Modelled from the spec: `transform_2d_vectors` (utils, not under src/)
applies only the rotation/scale part, no translation. -/
def transform_2d_vector (m : Affine2D) (p : Point) : Point :=
  (m.a * p.1 + m.b * p.2, m.c * p.1 + m.d * p.2)

/-- Matrix product of the affine transforms, as `@` composes the 4x4
matrices in `TrackRendererBase.render` / `RoadGraphRenderer.render`:
`composeAffine m n` acts as `m` after `n`. -/
def composeAffine (m n : Affine2D) : Affine2D :=
  { a := m.a * n.a + m.b * n.c
    b := m.a * n.b + m.b * n.d
    c := m.c * n.a + m.d * n.c
    d := m.c * n.b + m.d * n.d
    tx := m.a * n.tx + m.b * n.ty + m.tx
    ty := m.c * n.tx + m.d * n.ty + m.ty }

/-- Embeds `np.around` on an exact rational: round to nearest, ties to even. -/
def npAround (x : ℚ) : ℤ :=
  let f : ℤ := ⌊x⌋
  if x - f < 1/2 then f
  else if 1/2 < x - f then f + 1
  else if f % 2 = 0 then f else f + 1

/-- The pixel-rounding convention of rendering.py:
`np.around(coords - 0.5).astype(np.int32)` applied to one coordinate. -/
def pixelRound (x : ℚ) : ℤ := npAround (x - 1/2)

/-- Pixel rounding applied to both coordinates of a transformed point. -/
def pixelPoint (p : Point) : Pixel := (pixelRound p.1, pixelRound p.2)

/-- Length of Python's `range(a, b, s)` for `s ≠ 0`
(`max(0, ceil((b-a)/s))`, written with Euclidean division on nonnegative
operands). -/
def pythonRangeLen (a b s : ℤ) : ℕ :=
  if 0 < s then (if a < b then ((b - a + s - 1) / s).toNat else 0)
  else (if b < a then ((a - b + (-s) - 1) / (-s)).toNat else 0)

/-- Python's `range(a, b, s)` as a list, for `s ≠ 0`. -/
def pythonRange (a b s : ℤ) : List ℤ :=
  List.map (fun k : ℕ => a + (k : ℤ) * s) (List.range (pythonRangeLen a b s))

/-- The `time_grid_params` dict: start, stop, step. -/
structure TimeGridParams where
  start : ℤ
  stop : ℤ
  step : ℤ
deriving DecidableEq

/-- Embeds `FeatureMapRendererBase._get_history_indices`:
`list(range(-stop - 1, -start, step))`.  Python's `range` raises a
`ValueError` when the step is zero, modelled as the error case. -/
def get_history_indices (tg : TimeGridParams) : Except String (List ℤ) :=
  if tg.step = 0 then
    Except.error "range() arg 3 must not be zero"
  else
    Except.ok (pythonRange (-tg.stop - 1) (-tg.start) tg.step)

/-- Embeds `FeatureRenderer._validate_time_grid`: the four checks, in source order.
Note the source never validates `step`. -/
def validate_time_grid (tg : TimeGridParams) : Except String TimeGridParams :=
  if tg.start < 0 then
    Except.error "start value must be non-negative."
  else if tg.stop < 0 then
    Except.error "stop value must be non-negative"
  else if tg.stop < tg.start then
    Except.error "start must be less or equal to stop"
  else if MAX_HISTORY_LENGTH < tg.stop + 1 then
    Except.error "Maximum history size is 25. Consider setting stop to 24 or less"
  else
    Except.ok tg

/-- The conjunction of the four conditions `_validate_time_grid` enforces. -/
def timeGridOk (tg : TimeGridParams) : Prop :=
  0 ≤ tg.start ∧ 0 ≤ tg.stop ∧ tg.start ≤ tg.stop ∧ tg.stop + 1 ≤ MAX_HISTORY_LENGTH

instance (tg : TimeGridParams) : Decidable (timeGridOk tg) := by
  unfold timeGridOk
  infer_instance

/-- A track state, per the Scene proto (external data source): id, 2D
position, velocity, acceleration, yaw, footprint polygon.  The rotation of
the track's canonical heading is carried as the pair
(`yawCos`, `yawSin`) since the embedding works over exact rationals. -/
structure Track where
  id : ℕ
  posX : ℚ
  posY : ℚ
  yawCos : ℚ
  yawSin : ℚ
  velX : ℚ
  velY : ℚ
  accX : ℚ
  accY : ℚ
  yaw : ℚ
  polygon : List Point

/-- Opaque handle for a per-timestep traffic-light-sections message. -/
abbrev TLSections : Type := ℕ

/-- A lane of the path graph: ordered center points, yield flag,
speed limit. -/
structure LaneP where
  centers : List Point
  gives_way_to_some_lane : Bool
  max_velocity : ℚ

/-- A crosswalk of the path graph: its polygon geometry. -/
structure CrosswalkP where
  geometry : List Point

/-- A road polygon of the path graph: its polygon geometry. -/
structure RoadPolygonP where
  geometry : List Point

/-- The static path graph of a scene. -/
structure PathGraph where
  crosswalks : List CrosswalkP
  lanes : List LaneP
  road_polygons : List RoadPolygonP

/-- A Scene proto (external data source).  Per-timestep repeated fields are
modelled as functions of the (negative, Python-style) frame offset used to
index them in rendering.py. -/
structure Scene where
  past_vehicle_tracks : ℤ → List Track
  past_pedestrian_tracks : ℤ → List Track
  past_ego_track : ℤ → Track
  traffic_lights : ℤ → TLSections
  path_graph : PathGraph
  tracks : List Track

/-- A PredictionRequest proto: the target track id. -/
structure PredictionRequest where
  track_id : ℕ

/-- Modelled from the spec: `get_latest_track_state_by_id` (utils, not under
src/) resolves the target track's most recent state and fails with a lookup
error if the id is absent from the scene. -/
def get_latest_track_state_by_id (scene : Scene) (track_id : ℕ) :
    Except String Track :=
  match scene.tracks.find? (fun t => t.id = track_id) with
  | some t => Except.ok t
  | none => Except.error "Track id not found"

/-- Modelled from the spec: `get_to_track_frame_transform` (utils, not under
src/) builds the global-to-track-centric transform from the target track's
pose: translate to its position, then rotate to canonical heading. -/
def get_to_track_frame_transform (t : Track) : Affine2D :=
  { a := t.yawCos
    b := t.yawSin
    c := -t.yawSin
    d := t.yawCos
    tx := -(t.yawCos * t.posX + t.yawSin * t.posY)
    ty := -(-t.yawSin * t.posX + t.yawCos * t.posY) }

/-- Modelled from the spec: `get_tracks_polygons` (utils, not under src/)
returns each track's footprint polygon vertices. -/
def get_tracks_polygons (tracks : List Track) : List (List Point) :=
  tracks.map (fun t => t.polygon)

/-- External rasterizer and math primitives (OpenCV `fillPoly`,
`polylines`, `line`; `math.atan2`; the traffic-light availability helpers
of utils.map, none of which are under src/).  Modelled from the spec: the
fill/stroke primitives set every pixel their geometry covers to the given
value; coverage itself (including clipping to the plane bounds) is the
rasterizer's, hence a parameter. -/
structure Externals where
  fillCovers : List Pixel → Pixel → Bool
  lineCovers : List Pixel → Pixel → Bool
  segCovers : Pixel → Pixel → Pixel → Bool
  arctan2 : ℚ → ℚ → ℚ
  crosswalkAvailability : CrosswalkP → TLSections → ℚ
  laneAvailability : LaneP → TLSections → ℚ

/-- Embeds `cv2.fillPoly` on one polygon: sets every covered pixel to `v`. -/
def fillPoly (covers : List Pixel → Pixel → Bool) (pl : Plane)
    (poly : List Pixel) (v : ℚ) : Plane :=
  fun px => if covers poly px then v else pl px

/-- Embeds `cv2.fillPoly` on a list of polygons sharing one value: the polygons
are filled in list order. -/
def fillPolyBatch (covers : List Pixel → Pixel → Bool) (pl : Plane)
    (polys : List (List Pixel)) (v : ℚ) : Plane :=
  polys.foldl (fun pl p => fillPoly covers pl p v) pl

/-- Embeds `cv2.polylines` on a list of open polylines sharing one value. -/
def strokePolylines (lineCovers : List Pixel → Pixel → Bool) (pl : Plane)
    (lines : List (List Pixel)) (v : ℚ) : Plane :=
  lines.foldl (fun pl ln => fun px => if lineCovers ln px then v else pl px) pl

/-- Embeds `cv2.line` on one segment. -/
def strokeSegment (segCovers : Pixel → Pixel → Pixel → Bool) (pl : Plane)
    (p1 p2 : Pixel) (v : ℚ) : Plane :=
  fun px => if segCovers p1 p2 px then v else pl px

/-- Replace channel `c` of a feature map by `f` applied to its plane
(writing through a channel slice such as `feature_map[i, :, :]`). -/
def updateChannel (fm : FMData) (c : ℕ) (f : Plane → Plane) : FMData :=
  fun c' => if c' = c then f (fm c) else fm c'

/-- The two kinds of track renderer. -/
inductive TrackKind where
  | vehicle
  | pedestrian
deriving DecidableEq

/-- Embeds `VehicleTracksRenderer._get_num_channels`: occupancy 1, velocity 2,
acceleration 2, yaw 1, summed over the enabled sub-features. -/
def vehicleNumChannels (config : List String) : ℕ :=
  (if "occupancy" ∈ config then 1 else 0) +
  (if "velocity" ∈ config then 2 else 0) +
  (if "acceleration" ∈ config then 2 else 0) +
  (if "yaw" ∈ config then 1 else 0)

/-- Embeds `PedestrianTracksRenderer._get_num_channels`: occupancy 1, velocity 2. -/
def pedestrianNumChannels (config : List String) : ℕ :=
  (if "occupancy" ∈ config then 1 else 0) +
  (if "velocity" ∈ config then 2 else 0)

/-- Channel count of a track renderer of the given kind. -/
def trackNumChannels (kind : TrackKind) (config : List String) : ℕ :=
  match kind with
  | .vehicle => vehicleNumChannels config
  | .pedestrian => pedestrianNumChannels config

/-- The sub-feature names a `VehicleTracksRenderer` recognizes. -/
def vehicleKnownFeatures : List String :=
  ["occupancy", "velocity", "acceleration", "yaw"]

/-- The sub-feature names a `PedestrianTracksRenderer` recognizes. -/
def pedestrianKnownFeatures : List String := ["occupancy", "velocity"]

/-- Embeds `_get_tracks_at_timestamp`: the vehicle renderer takes the frame's
vehicle tracks and appends the ego track; the pedestrian renderer takes the
frame's pedestrian tracks. -/
def get_tracks_at_timestamp (kind : TrackKind) (scene : Scene) (ts_ind : ℤ) :
    List Track :=
  match kind with
  | .vehicle => scene.past_vehicle_tracks ts_ind ++ [scene.past_ego_track ts_ind]
  | .pedestrian => scene.past_pedestrian_tracks ts_ind

/-- Embeds `TrackRendererBase._get_occupancy_values` for one track: `[1]`. -/
def occupancyValues (_t : Track) : List ℚ := [1]

/-- Embeds `TrackRendererBase._get_velocity_values` for one track: the velocity
vector through `transform_2d_vectors`. -/
def velocityValues (tf : Affine2D) (t : Track) : List ℚ :=
  let v := transform_2d_vector tf (t.velX, t.velY)
  [v.1, v.2]

/-- Embeds `TrackRendererBase._get_acceleration_values` for one track. -/
def accelerationValues (tf : Affine2D) (t : Track) : List ℚ :=
  let v := transform_2d_vector tf (t.accX, t.accY)
  [v.1, v.2]

/-- Embeds `TrackRendererBase._get_yaw_values` for one track: `[yaw]`. -/
def yawValues (t : Track) : List ℚ := [t.yaw]

/-- The per-track value blocks appended by `_get_fm_values`, in source
order (vehicle: occupancy, velocity, acceleration, yaw; pedestrian:
occupancy, velocity). -/
def fmValueBlocks (kind : TrackKind) (config : List String) (tf : Affine2D) :
    List (Track → List ℚ) :=
  match kind with
  | .vehicle =>
      (if "occupancy" ∈ config then [occupancyValues] else []) ++
      (if "velocity" ∈ config then [velocityValues tf] else []) ++
      (if "acceleration" ∈ config then [accelerationValues tf] else []) ++
      (if "yaw" ∈ config then [yawValues] else [])
  | .pedestrian =>
      (if "occupancy" ∈ config then [occupancyValues] else []) ++
      (if "velocity" ∈ config then [velocityValues tf] else [])

/-- Embeds `_get_fm_values`: one row of feature values per track, the enabled
blocks concatenated along axis 1.  `np.concatenate` of an empty list of
arrays raises a `ValueError`, modelled as the error case. -/
def get_fm_values (kind : TrackKind) (config : List String)
    (tracks : List Track) (tf : Affine2D) :
    Except String (List (List ℚ)) :=
  let blocks := fmValueBlocks kind config tf
  if blocks.isEmpty then
    Except.error "need at least one array to concatenate"
  else
    Except.ok (tracks.map (fun t => (blocks.map (fun blk => blk t)).flatten))

/-- Embeds `fm_values.shape[1]`: the common row width of the per-track values. -/
def fmValuesWidth (vals : List (List ℚ)) : ℕ := (vals.headD []).length

/-- The inner double loop of `TrackRendererBase.render`: for one fixed
channel, `cv2.fillPoly` is applied to each track's polygon in track order,
each filling with that track's value for the channel — so a later track
overwrites an earlier one on shared pixels. -/
def renderChannelTracks (covers : List Pixel → Pixel → Bool)
    (pvs : List (List Pixel × ℚ)) (pl : Plane) : Plane :=
  pvs.foldl (fun pl pv => fillPoly covers pl pv.1 pv.2) pl

/-- The channel loop of `TrackRendererBase.render` for history step `i`:
channel `i * num_channels + channel_idx` receives the fills of all tracks
with their values for `channel_idx`. -/
def renderStepWrite (covers : List Pixel → Pixel → Bool) (num i : ℕ)
    (polys : List (List Pixel)) (vals : List (List ℚ)) (fm : FMData) : FMData :=
  (List.range (fmValuesWidth vals)).foldl
    (fun fm ch =>
      updateChannel fm (i * num + ch)
        (renderChannelTracks covers
          (polys.zip (vals.map (fun row => row.getD ch 0)))))
    fm

/-- One iteration of the history loop of `TrackRendererBase.render`:
fetch the frame's tracks, skip the frame if empty, transform and round the
footprint polygons, compute the per-track values, write the channels. -/
def renderTracksStep (covers : List Pixel → Pixel → Bool) (kind : TrackKind)
    (config : List String) (num : ℕ) (tfFull toTrackTf : Affine2D)
    (scene : Scene) (i : ℕ) (ts_ind : ℤ) (fm : FMData) :
    Except String FMData :=
  let tracks := get_tracks_at_timestamp kind scene ts_ind
  if tracks.isEmpty then
    Except.ok fm
  else do
    let polys := (get_tracks_polygons tracks).map
      (fun poly => poly.map (fun p => pixelPoint (transform_2d_point tfFull p)))
    let vals ← get_fm_values kind config tracks toTrackTf
    Except.ok (renderStepWrite covers num i polys vals fm)

/-- The history loop of `TrackRendererBase.render`, carrying the
`enumerate` index. -/
def trackRenderAux (covers : List Pixel → Pixel → Bool) (kind : TrackKind)
    (config : List String) (num : ℕ) (tfFull toTrackTf : Affine2D)
    (scene : Scene) (i : ℕ) (hist : List ℤ) (fm : FMData) :
    Except String FMData :=
  match hist with
  | [] => Except.ok fm
  | ts_ind :: rest => do
      let fm' ← renderTracksStep covers kind config num tfFull toTrackTf
        scene i ts_ind fm
      trackRenderAux covers kind config num tfFull toTrackTf scene (i + 1) rest fm'

/-- Embeds `TrackRendererBase.render`: compose the transforms, then loop over the
history indices. -/
def trackRender (covers : List Pixel → Pixel → Bool) (kind : TrackKind)
    (config : List String) (hist : List ℤ) (to_feature_map_tf : Affine2D)
    (scene : Scene) (to_track_transform : Affine2D) (fm : FMData) :
    Except String FMData :=
  let transform := composeAffine to_feature_map_tf to_track_transform
  trackRenderAux covers kind config (trackNumChannels kind config)
    transform to_track_transform scene 0 hist fm

/-- Embeds `RoadGraphRenderer._get_crosswalk_feature_map_size`. -/
def crosswalkFeatureMapSize (config : List String) : ℕ :=
  (if "crosswalk_occupancy" ∈ config then 1 else 0) +
  (if "crosswalk_availability" ∈ config then 1 else 0)

/-- Embeds `RoadGraphRenderer._get_lane_feature_map_size`. -/
def laneFeatureMapSize (config : List String) : ℕ :=
  (if "lane_availability" ∈ config then 1 else 0) +
  (if "lane_direction" ∈ config then 1 else 0) +
  (if "lane_occupancy" ∈ config then 1 else 0) +
  (if "lane_priority" ∈ config then 1 else 0) +
  (if "lane_speed_limit" ∈ config then 1 else 0)

/-- Embeds `RoadGraphRenderer._get_road_feature_map_size`. -/
def roadFeatureMapSize (config : List String) : ℕ :=
  if "road_polygons" ∈ config then 1 else 0

/-- Embeds `RoadGraphRenderer._get_num_channels`: crosswalk + lane + road sizes. -/
def roadGraphNumChannels (config : List String) : ℕ :=
  crosswalkFeatureMapSize config + laneFeatureMapSize config +
  roadFeatureMapSize config

/-- The sub-feature names a `RoadGraphRenderer` recognizes. -/
def roadGraphKnownFeatures : List String :=
  ["crosswalk_occupancy", "crosswalk_availability", "lane_availability",
   "lane_direction", "lane_occupancy", "lane_priority", "lane_speed_limit",
   "road_polygons"]

/-- Insertion-ordered grouping, as Python's `defaultdict(list)` iterated in
key insertion order: each key holds its values in arrival order. -/
def insertGrouped {α : Type} (acc : List (ℚ × List α)) (k : ℚ) (v : α) :
    List (ℚ × List α) :=
  match acc with
  | [] => [(k, [v])]
  | (k', vs) :: rest =>
      if k' = k then (k', vs ++ [v]) :: rest
      else (k', vs) :: insertGrouped rest k v

/-- Group a keyed list preserving first-occurrence key order. -/
def groupByValue {α : Type} (l : List (ℚ × α)) : List (ℚ × List α) :=
  l.foldl (fun acc kv => insertGrouped acc kv.1 kv.2) []

/-- Embeds `RoadGraphRenderer._render_crosswalks` on its channel sub-view:
transform and round the crosswalk polygons, then fill the occupancy channel
with 1 and the availability channel per availability group. -/
def renderCrosswalks (prim : Externals) (config : List String)
    (path_graph : PathGraph) (tls : TLSections) (transform : Affine2D)
    (view : FMData) : FMData :=
  let crosswalk_polygons := path_graph.crosswalks.map
    (fun cw => cw.geometry.map (fun p => pixelPoint (transform_2d_point transform p)))
  let st :=
    if "crosswalk_occupancy" ∈ config then
      (updateChannel view 0 (fun pl => fillPolyBatch prim.fillCovers pl crosswalk_polygons 1), 1)
    else (view, 0)
  if "crosswalk_availability" ∈ config then
    let keyed := (path_graph.crosswalks.map
      (fun cw => prim.crosswalkAvailability cw tls)).zip crosswalk_polygons
    let groups := groupByValue keyed
    updateChannel st.1 st.2 (fun pl =>
      groups.foldl (fun pl g => fillPolyBatch prim.fillCovers pl g.2 g.1) pl)
  else st.1

/-- Embeds `RoadGraphRenderer._render_lane_availability` on one plane. -/
def renderLaneAvailability (prim : Externals) (lane_centers : List (List Pixel))
    (path_graph : PathGraph) (tls : TLSections) (pl : Plane) : Plane :=
  let keyed := (path_graph.lanes.map
    (fun ln => prim.laneAvailability ln tls)).zip lane_centers
  let groups := groupByValue keyed
  groups.foldl (fun pl g => strokePolylines prim.lineCovers pl g.2 g.1) pl

/-- Embeds `RoadGraphRenderer._render_lane_direction` on one plane: each segment
drawn with its heading angle as value. -/
def renderLaneDirection (prim : Externals) (lane_centers : List (List Pixel))
    (pl : Plane) : Plane :=
  lane_centers.foldl (fun pl lane =>
    (List.range (lane.length - 1)).foldl (fun pl i =>
      let p1 := lane.getD i (0, 0)
      let p2 := lane.getD (i + 1) (0, 0)
      strokeSegment prim.segCovers pl p1 p2
        (prim.arctan2 ((p2.2 : ℚ) - (p1.2 : ℚ)) ((p2.1 : ℚ) - (p1.1 : ℚ))))
      pl)
    pl

/-- Embeds `RoadGraphRenderer._render_lane_occupancy` on one plane. -/
def renderLaneOccupancy (prim : Externals) (lane_centers : List (List Pixel))
    (pl : Plane) : Plane :=
  strokePolylines prim.lineCovers pl lane_centers 1

/-- Embeds `RoadGraphRenderer._render_lane_priority` on one plane: only the lanes
that give way to some lane are stroked. -/
def renderLanePriority (prim : Externals) (lane_centers : List (List Pixel))
    (path_graph : PathGraph) (pl : Plane) : Plane :=
  let non_priority_lanes :=
    ((path_graph.lanes.zip lane_centers).filter
      (fun lc => lc.1.gives_way_to_some_lane)).map (fun lc => lc.2)
  strokePolylines prim.lineCovers pl non_priority_lanes 1

/-- Embeds `RoadGraphRenderer._render_lane_speed_limit` on one plane: lanes grouped
by speed limit, drawn value `max_velocity / 15.0`. -/
def renderLaneSpeedLimit (prim : Externals) (lane_centers : List (List Pixel))
    (path_graph : PathGraph) (pl : Plane) : Plane :=
  let keyed := (path_graph.lanes.map (fun ln => ln.max_velocity)).zip lane_centers
  let groups := groupByValue keyed
  groups.foldl (fun pl g => strokePolylines prim.lineCovers pl g.2 (g.1 / 15)) pl

/-- Embeds `RoadGraphRenderer._render_lanes` on its channel sub-view: the enabled
lane sub-features in source order, each on the next channel. -/
def renderLanes (prim : Externals) (config : List String)
    (path_graph : PathGraph) (tls : TLSections) (transform : Affine2D)
    (view : FMData) : FMData :=
  let lane_centers := path_graph.lanes.map
    (fun ln => ln.centers.map (fun p => pixelPoint (transform_2d_point transform p)))
  let st :=
    if "lane_availability" ∈ config then
      (updateChannel view 0 (renderLaneAvailability prim lane_centers path_graph tls), 1)
    else (view, 0)
  let st :=
    if "lane_direction" ∈ config then
      (updateChannel st.1 st.2 (renderLaneDirection prim lane_centers), st.2 + 1)
    else st
  let st :=
    if "lane_occupancy" ∈ config then
      (updateChannel st.1 st.2 (renderLaneOccupancy prim lane_centers), st.2 + 1)
    else st
  let st :=
    if "lane_priority" ∈ config then
      (updateChannel st.1 st.2 (renderLanePriority prim lane_centers path_graph), st.2 + 1)
    else st
  if "lane_speed_limit" ∈ config then
    updateChannel st.1 st.2 (renderLaneSpeedLimit prim lane_centers path_graph)
  else st.1

/-- Embeds `RoadGraphRenderer._render_road_polygons` on its channel sub-view. -/
def renderRoadPolygons (prim : Externals) (path_graph : PathGraph)
    (transform : Affine2D) (view : FMData) : FMData :=
  let road_polygons := path_graph.road_polygons.map
    (fun rp => rp.geometry.map (fun p => pixelPoint (transform_2d_point transform p)))
  updateChannel view 0 (fun pl => fillPolyBatch prim.fillCovers pl road_polygons 1)

/-- A sub-view of a feature map starting at channel offset `off`. -/
def viewAt (fm : FMData) (off : ℕ) : FMData := fun c => fm (off + c)

/-- Write a sub-view of `len` channels back at offset `off`. -/
def writeViewAt (fm : FMData) (off len : ℕ) (v : FMData) : FMData :=
  fun c => if off ≤ c ∧ c < off + len then v (c - off) else fm c

/-- One iteration of the channel loop of `RoadGraphRenderer.render`: the
crosswalk, lane and road-polygon layers at their slices for history channel
index `ci`. -/
def renderRoadGraphStep (prim : Externals) (config : List String) (num : ℕ)
    (transform : Affine2D) (scene : Scene) (hist : List ℤ) (ci : ℕ)
    (fm : FMData) : FMData :=
  let tls := scene.traffic_lights (hist.getD ci 0)
  let pg := scene.path_graph
  let fm :=
    if 0 < crosswalkFeatureMapSize config then
      writeViewAt fm (ci * num) (crosswalkFeatureMapSize config)
        (renderCrosswalks prim config pg tls transform
          (viewAt fm (ci * num)))
    else fm
  let fm :=
    if 0 < laneFeatureMapSize config then
      let off := ci * num + crosswalkFeatureMapSize config
      writeViewAt fm off (laneFeatureMapSize config)
        (renderLanes prim config pg tls transform (viewAt fm off))
    else fm
  if 0 < roadFeatureMapSize config then
    let off := ci * num + crosswalkFeatureMapSize config + laneFeatureMapSize config
    writeViewAt fm off (roadFeatureMapSize config)
      (renderRoadPolygons prim pg transform (viewAt fm off))
  else fm

/-- Embeds `RoadGraphRenderer.render`: compose the transforms, then loop over the
history channel indices. -/
def roadGraphRender (prim : Externals) (config : List String) (hist : List ℤ)
    (to_feature_map_tf : Affine2D) (scene : Scene)
    (to_track_transform : Affine2D) (fm : FMData) : FMData :=
  let transform := composeAffine to_feature_map_tf to_track_transform
  (List.range hist.length).foldl
    (fun fm ci =>
      renderRoadGraphStep prim config (roadGraphNumChannels config) transform
        scene hist ci fm)
    fm

/-- A constructed renderer: the variant tag with its config, history
indices and the shared pixel transform. -/
inductive Renderer where
  | vehicle (config : List String) (hist : List ℤ) (tf : Affine2D)
  | pedestrian (config : List String) (hist : List ℤ) (tf : Affine2D)
  | roadGraph (config : List String) (hist : List ℤ) (tf : Affine2D)
deriving DecidableEq

/-- Embeds `FeatureMapRendererBase.num_channels` per variant. -/
def Renderer.numChannels : Renderer → ℕ
  | .vehicle config _ _ => vehicleNumChannels config
  | .pedestrian config _ _ => pedestrianNumChannels config
  | .roadGraph config _ _ => roadGraphNumChannels config

/-- Embeds `FeatureMapRendererBase.n_history_steps`: length of the history
indices. -/
def Renderer.nHistorySteps : Renderer → ℕ
  | .vehicle _ hist _ => hist.length
  | .pedestrian _ hist _ => hist.length
  | .roadGraph _ hist _ => hist.length

/-- The `render` method dispatched per variant, on the renderer's channel sub-view. -/
def Renderer.render (r : Renderer) (prim : Externals) (scene : Scene)
    (to_track_transform : Affine2D) (fm : FMData) : Except String FMData :=
  match r with
  | .vehicle config hist tf =>
      trackRender prim.fillCovers .vehicle config hist tf scene
        to_track_transform fm
  | .pedestrian config hist tf =>
      trackRender prim.fillCovers .pedestrian config hist tf scene
        to_track_transform fm
  | .roadGraph config hist tf =>
      Except.ok (roadGraphRender prim config hist tf scene to_track_transform fm)

/-- The `feature_map_params` dict: rows, cols, resolution. -/
structure FeatureMapParams where
  rows : ℕ
  cols : ℕ
  resolution : ℚ
deriving DecidableEq

/-- One entry of a group's `renderers` list.  Per the config schema each
entry maps one category name to its sub-feature list. -/
structure RendererSpec where
  category : String
  subFeatures : List String
deriving DecidableEq

/-- One entry of `renderers_groups`: a time grid and its renderer specs. -/
structure RendererGroup where
  time_grid_params : TimeGridParams
  renderers : List RendererSpec
deriving DecidableEq

/-- The full renderer configuration. -/
structure RendererConfig where
  feature_map_params : FeatureMapParams
  renderers_groups : List RendererGroup
deriving DecidableEq

/-- Embeds `FeatureRenderer._get_to_feature_map_transform`: scale `1/resolution`,
origin translated to the image center `(0.5 * rows, 0.5 * cols)`. -/
def get_to_feature_map_transform (p : FeatureMapParams) : Affine2D :=
  { a := 1 / p.resolution
    b := 0
    c := 0
    d := 1 / p.resolution
    tx := (1 / 2 : ℚ) * p.rows
    ty := (1 / 2 : ℚ) * p.cols }

/-- The category names `FeatureRenderer._create_renderer` recognizes. -/
def recognizedCategories : List String := ["vehicles", "pedestrians", "road_graph"]

/-- Embeds `FeatureRenderer._create_renderer`: dispatch on the category name;
an unrecognized name raises `NotImplementedError`.  For a recognized name
the renderer's constructor computes the history indices, which raises if
the step is zero. -/
def create_renderer (spec : RendererSpec) (tg : TimeGridParams)
    (tf : Affine2D) : Except String Renderer :=
  if spec.category = "vehicles" then do
    let hist ← get_history_indices tg
    Except.ok (Renderer.vehicle spec.subFeatures hist tf)
  else if spec.category = "pedestrians" then do
    let hist ← get_history_indices tg
    Except.ok (Renderer.pedestrian spec.subFeatures hist tf)
  else if spec.category = "road_graph" then do
    let hist ← get_history_indices tg
    Except.ok (Renderer.roadGraph spec.subFeatures hist tf)
  else
    Except.error "NotImplementedError"

/-- The inner loop of `FeatureRenderer._create_renderers_list` for one
group: per renderer spec, validate the group's time grid and construct. -/
def createGroupRenderers (tg : TimeGridParams) (tf : Affine2D) :
    List RendererSpec → Except String (List Renderer)
  | [] => Except.ok []
  | spec :: rest => do
      let tgv ← validate_time_grid tg
      let r ← create_renderer spec tgv tf
      let rs ← createGroupRenderers tg tf rest
      Except.ok (r :: rs)

/-- Embeds `FeatureRenderer._create_renderers_list`: all groups, in order. -/
def create_renderers_list (tf : Affine2D) :
    List RendererGroup → Except String (List Renderer)
  | [] => Except.ok []
  | g :: rest => do
      let rs1 ← createGroupRenderers g.time_grid_params tf g.renderers
      let rs2 ← create_renderers_list tf rest
      Except.ok (rs1 ++ rs2)

/-- Embeds `FeatureRenderer._get_num_channels`: sum over renderers of channel
count times history-step count. -/
def get_num_channels (renderers : List Renderer) : ℕ :=
  (renderers.map (fun r => r.numChannels * r.nHistorySteps)).sum

/-- A constructed `FeatureRenderer`. -/
structure FeatureRenderer where
  feature_map_params : FeatureMapParams
  to_feature_map_tf : Affine2D
  renderers : List Renderer
  num_channels : ℕ
deriving DecidableEq

/-- Embeds `FeatureRenderer.__init__`: store the params, build the pixel
transform, build the renderer list, compute the channel count. -/
def mkFeatureRenderer (config : RendererConfig) : Except String FeatureRenderer := do
  let tf := get_to_feature_map_transform config.feature_map_params
  let renderers ← create_renderers_list tf config.renderers_groups
  Except.ok
    { feature_map_params := config.feature_map_params
      to_feature_map_tf := tf
      renderers := renderers
      num_channels := get_num_channels renderers }

/-- The numpy dtypes this embedding distinguishes. -/
inductive DType where
  | float32
deriving DecidableEq

/-- The output tensor: shape, dtype and per-channel data. -/
structure FeatureMaps where
  shape : List ℕ
  dtype : DType
  data : FMData

/-- Embeds `_create_feature_maps` (module level): a zero tensor of shape
`[num_channels, rows, cols]` with 32-bit float dtype. -/
def create_feature_maps (rows cols num_channels : ℕ) : FeatureMaps :=
  { shape := [num_channels, rows, cols]
    dtype := DType.float32
    data := fun _ _ => 0 }

/-- The accumulating slice loop of `FeatureRenderer.produce_features`:
each renderer gets the sub-view `[slice_start, slice_end)` where
`slice_end = slice_start + num_channels * n_history_steps`, then
`slice_start` advances to `slice_end`. -/
def renderAll (prim : Externals) (scene : Scene) (to_track_tf : Affine2D) :
    List Renderer → ℕ → FMData → Except String FMData
  | [], _, fm => Except.ok fm
  | r :: rest, slice_start, fm => do
      let len := r.numChannels * r.nHistorySteps
      let v ← r.render prim scene to_track_tf (viewAt fm slice_start)
      renderAll prim scene to_track_tf rest (slice_start + len)
        (writeViewAt fm slice_start len v)

/-- The half-open channel ranges assigned by the accumulating pass of
`produce_features`, in declaration order. -/
def channelSlices : List Renderer → ℕ → List (ℕ × ℕ)
  | [], _ => []
  | r :: rest, slice_start =>
      let slice_end := slice_start + r.numChannels * r.nHistorySteps
      (slice_start, slice_end) :: channelSlices rest slice_end

/-- Embeds `FeatureRenderer.produce_features`: resolve the target track, build the
track-centric transform, allocate the zero tensor, render each renderer on
its slice, return the tensor. -/
def produce_features (prim : Externals) (fr : FeatureRenderer) (scene : Scene)
    (request : PredictionRequest) : Except String FeatureMaps := do
  let track ← get_latest_track_state_by_id scene request.track_id
  let to_track_frame_tf := get_to_track_frame_transform track
  let feature_maps := create_feature_maps fr.feature_map_params.rows
    fr.feature_map_params.cols fr.num_channels
  let data ← renderAll prim scene to_track_frame_tf fr.renderers 0
    feature_maps.data
  Except.ok { feature_maps with data := data }

/-- Whether an `Except` computation succeeded. -/
def isOkE {α : Type} : Except String α → Bool
  | .ok _ => true
  | .error _ => false

/-- Pick the value of a successful computation, with a fallback. -/
def exOk {α : Type} (d : α) : Except String α → α
  | .ok x => x
  | .error _ => d

/-- A concrete rasterizer-coverage model for witnesses: a pixel is covered
exactly when it is one of the polygon's vertices. -/
def vertexCovers (poly : List Pixel) (px : Pixel) : Bool :=
  decide (px ∈ poly)

/-- Concrete externals used by the witness scenarios. -/
def primW : Externals :=
  { fillCovers := vertexCovers
    lineCovers := vertexCovers
    segCovers := fun p1 p2 px => decide (px = p1 ∨ px = p2)
    arctan2 := fun _ _ => 0
    crosswalkAvailability := fun _ _ => 0
    laneAvailability := fun _ _ => 0 }

/-- A concrete track at the origin with a unit-square footprint. -/
def trackW : Track :=
  { id := 7, posX := 0, posY := 0, yawCos := 1, yawSin := 0,
    velX := 0, velY := 0, accX := 0, accY := 0, yaw := 0,
    polygon := [(0, 0), (0, 1), (1, 1), (1, 0)] }

/-- A concrete scene containing only the ego track `trackW`. -/
def sceneW : Scene :=
  { past_vehicle_tracks := fun _ => []
    past_pedestrian_tracks := fun _ => []
    past_ego_track := fun _ => trackW
    traffic_lights := fun _ => 0
    path_graph := { crosswalks := [], lanes := [], road_polygons := [] }
    tracks := [trackW] }

/-- The request matching `trackW`. -/
def reqW : PredictionRequest := { track_id := 7 }

/-- A request whose track id is absent from `sceneW`. -/
def reqMissing : PredictionRequest := { track_id := 9 }

/-- A small valid configuration: one vehicles renderer, occupancy only,
history window start 0 stop 0 step 1, a 2x2 map at resolution 1. -/
def cfgW : RendererConfig :=
  { feature_map_params := { rows := 2, cols := 2, resolution := 1 }
    renderers_groups :=
      [{ time_grid_params := { start := 0, stop := 0, step := 1 }
         renderers := [{ category := "vehicles", subFeatures := ["occupancy"] }] }] }

/-- A copy of `cfgW` with the time-grid step set to -1 (violating `step ≥ 1`). -/
def cfgStepNeg : RendererConfig :=
  { feature_map_params := { rows := 2, cols := 2, resolution := 1 }
    renderers_groups :=
      [{ time_grid_params := { start := 0, stop := 0, step := -1 }
         renderers := [{ category := "vehicles", subFeatures := ["occupancy"] }] }] }

/-- A copy of `cfgW` with an unrecognized renderer category name. -/
def cfgBadCat : RendererConfig :=
  { feature_map_params := { rows := 2, cols := 2, resolution := 1 }
    renderers_groups :=
      [{ time_grid_params := { start := 0, stop := 0, step := 1 }
         renderers := [{ category := "boats", subFeatures := ["occupancy"] }] }] }

/-- Fallback `FeatureRenderer` for `exOk`. -/
def dummyFR : FeatureRenderer :=
  { feature_map_params := { rows := 0, cols := 0, resolution := 1 }
    to_feature_map_tf := ⟨0, 0, 0, 0, 0, 0⟩
    renderers := []
    num_channels := 0 }

/-- The renderer constructed from `cfgW`. -/
def frW : FeatureRenderer := exOk dummyFR (mkFeatureRenderer cfgW)

/-- Fallback `FeatureMaps` for `exOk`. -/
def dummyFM : FeatureMaps :=
  { shape := [], dtype := DType.float32, data := fun _ _ => 0 }

/-- The output of `produce_features` on the witness scenario. -/
def outW : FeatureMaps := exOk dummyFM (produce_features primW frW sceneW reqW)

/-- The zero affine transform, used as a throwaway argument. -/
def tfZ : Affine2D := ⟨0, 0, 0, 0, 0, 0⟩

/-- A renderer spec with an unrecognized category name. -/
def specBoats : RendererSpec := ⟨"boats", ["occupancy"]⟩

/-- The group of `cfgBadCat`. -/
def groupBoats : RendererGroup := ⟨⟨0, 0, 1⟩, [specBoats]⟩

/-- The all-zero feature-map data. -/
def fmZero : FMData := fun _ _ => 0

/-- A pedestrian-renderer run with an unknown-only sub-feature list on a
scene with no pedestrians: the feature map is returned unchanged. -/
def fmP : FMData :=
  exOk fmZero
    (trackRender vertexCovers TrackKind.pedestrian ["warp_drive"] [-1] tfZ
      sceneW tfZ fmZero)

theorem exc_bind_ok {α β : Type} (a : α) (f : α → Except String β) :
    (Except.ok a >>= f) = f a := rfl

theorem exc_bind_err {α β : Type} (e : String) (f : α → Except String β) :
    ((Except.error e : Except String α) >>= f) = Except.error e := rfl

theorem composeAffine_apply (m n : Affine2D) (p : Point) :
    transform_2d_point (composeAffine m n) p =
      transform_2d_point m (transform_2d_point n p) := by
  simp only [transform_2d_point, composeAffine, Prod.mk.injEq]
  constructor <;> ring

theorem to_track_frame_maps_pos_to_origin (t : Track) :
    transform_2d_point (get_to_track_frame_transform t) (t.posX, t.posY) =
      ((0 : ℚ), (0 : ℚ)) := by
  simp only [transform_2d_point, get_to_track_frame_transform, Prod.mk.injEq]
  constructor <;> ring

/-- C4: transforming the target track's own position through the composed
transform (pixel transform composed with the track-centric transform)
yields exactly the image-center point `(rows/2, cols/2)`, for every target
track pose and every feature-map configuration. -/
theorem target_position_maps_to_image_center (p : FeatureMapParams) (t : Track) :
    transform_2d_point
      (composeAffine (get_to_feature_map_transform p) (get_to_track_frame_transform t))
      (t.posX, t.posY) = ((p.rows : ℚ) / 2, (p.cols : ℚ) / 2) := by
  rw [composeAffine_apply, to_track_frame_maps_pos_to_origin]
  simp only [transform_2d_point, get_to_feature_map_transform, Prod.mk.injEq]
  constructor <;> ring

/-- C6 counterexample: at transformed coordinate `x = 9/4` the code's pixel
rounding `np.around(x - 0.5)` yields 2, while `floor(x - 0.5)` yields 1, so
the pixel index is not computed as `floor(x - 0.5)`. -/
theorem pixel_round_is_not_floor :
    pixelRound (9 / 4) = 2 ∧ ⌊(9 / 4 : ℚ) - 1 / 2⌋ = 1 := by
  have h74 : (9 / 4 : ℚ) - 1 / 2 = 7 / 4 := by norm_num
  have hfl : ⌊(7 / 4 : ℚ)⌋ = 1 := by
    rw [Int.floor_eq_iff]
    · norm_num
  constructor
  · rw [pixelRound, h74, npAround, hfl]
    norm_num
  · rw [h74, hfl]

theorem npAround_props (y : ℚ) :
    ⌊y⌋ ≤ npAround y ∧ npAround y ≤ ⌈y⌉ ∧ |(npAround y : ℚ) - y| ≤ 1 / 2 := by
  have hfl : (⌊y⌋ : ℚ) ≤ y := Int.floor_le y
  have hfu : y < (⌊y⌋ : ℚ) + 1 := Int.lt_floor_add_one y
  rw [npAround]
  split_ifs with h1 h2 h3
  · refine ⟨le_refl _, Int.floor_le_ceil y, ?_⟩
    rw [abs_le]
    constructor <;> linarith
  · have hne : (⌊y⌋ : ℚ) < y := by linarith
    have hceil : ⌊y⌋ + 1 ≤ ⌈y⌉ := by
      have := Int.lt_ceil.mpr hne
      omega
    refine ⟨by omega, hceil, ?_⟩
    rw [abs_le]
    push_cast
    constructor <;> linarith
  · have heq : y - (⌊y⌋ : ℚ) = 1 / 2 := by linarith
    refine ⟨le_refl _, Int.floor_le_ceil y, ?_⟩
    rw [abs_le]
    constructor <;> linarith
  · have heq : y - (⌊y⌋ : ℚ) = 1 / 2 := by linarith
    have hne : (⌊y⌋ : ℚ) < y := by linarith
    have hceil : ⌊y⌋ + 1 ≤ ⌈y⌉ := by
      have := Int.lt_ceil.mpr hne
      omega
    refine ⟨by omega, hceil, ?_⟩
    rw [abs_le]
    push_cast
    constructor <;> linarith

/-- C6 amended: every pixel index handed to the rasterizer is computed from
the real-valued transformed coordinate `x` as round-half-to-even of
`x - 0.5` (`np.around(x - 0.5)`), which lies between `floor(x - 0.5)` and
`ceil(x - 0.5)` and within 1/2 of `x - 0.5` — but is not `floor(x - 0.5)`
in general. -/
theorem pixel_round_props (x : ℚ) :
    ⌊x - 1 / 2⌋ ≤ pixelRound x ∧ pixelRound x ≤ ⌈x - 1 / 2⌉ ∧
      |(pixelRound x : ℚ) - (x - 1 / 2)| ≤ 1 / 2 :=
  npAround_props (x - 1 / 2)

theorem pythonRange_lt_of_pos (a b s : ℤ) (hs : 0 < s) (k : ℕ)
    (hk : k < pythonRangeLen a b s) : a + k * s < b := by
  rw [pythonRangeLen, if_pos hs] at hk
  by_cases hab : a < b
  · rw [if_pos hab] at hk
    have hN : (k : ℤ) < (b - a + s - 1) / s := Int.lt_toNat.mp hk
    have hdm := Int.ediv_add_emod (b - a + s - 1) s
    have hmod : 0 ≤ (b - a + s - 1) % s := Int.emod_nonneg _ (by omega)
    have hq1 : (k : ℤ) + 1 ≤ (b - a + s - 1) / s := by omega
    have h3 : s * ((k : ℤ) + 1) ≤ s * ((b - a + s - 1) / s) :=
      mul_le_mul_of_nonneg_left hq1 (by omega)
    have h4 : s * ((k : ℤ) + 1) = k * s + s := by ring
    linarith
  · rw [if_neg hab] at hk
    omega

theorem pythonRange_chain (a b s : ℤ) :
    List.Chain' (fun x y => y - x = s) (pythonRange a b s) := by
  rw [pythonRange, List.chain'_map, List.chain'_iff_get]
  intro i h
  simp only [List.get_range]
  push_cast
  ring

theorem pythonRange_pairwise (a b s : ℤ) (hs : 0 < s) :
    (pythonRange a b s).Pairwise (· < ·) := by
  rw [pythonRange]
  refine List.Pairwise.map _ ?_ (List.pairwise_lt_range _)
  intro i j hij
  have hij' : (i : ℤ) < j := by exact_mod_cast hij
  have := mul_lt_mul_of_pos_right hij' hs
  linarith

/-- C3: for every valid time-grid spec (0 ≤ start ≤ stop, stop+1 ≤ 25,
step ≥ 1) the produced history-offset sequence is spaced exactly `step`
apart, strictly increasing, entirely negative, and has length
`len(range(-stop-1, -start, step))`. -/
theorem history_offsets_props (tg : TimeGridParams)
    (h0 : 0 ≤ tg.start) (h1 : tg.start ≤ tg.stop)
    (h2 : tg.stop + 1 ≤ MAX_HISTORY_LENGTH) (h3 : 1 ≤ tg.step) :
    get_history_indices tg =
      Except.ok (pythonRange (-tg.stop - 1) (-tg.start) tg.step) ∧
    List.Chain' (fun x y => y - x = tg.step)
      (pythonRange (-tg.stop - 1) (-tg.start) tg.step) ∧
    (pythonRange (-tg.stop - 1) (-tg.start) tg.step).Pairwise (· < ·) ∧
    (∀ x ∈ pythonRange (-tg.stop - 1) (-tg.start) tg.step, x < 0) ∧
    (pythonRange (-tg.stop - 1) (-tg.start) tg.step).length =
      pythonRangeLen (-tg.stop - 1) (-tg.start) tg.step := by
  have hs : (0 : ℤ) < tg.step := by omega
  refine ⟨?_, pythonRange_chain _ _ _, pythonRange_pairwise _ _ _ hs, ?_, ?_⟩
  · rw [get_history_indices, if_neg (by omega)]
  · intro x hx
    rw [pythonRange, List.mem_map] at hx
    obtain ⟨k, hk, rfl⟩ := hx
    rw [List.mem_range] at hk
    have := pythonRange_lt_of_pos _ _ _ hs k hk
    omega
  · simp [pythonRange]

/-- Witness for C3 at the concrete grid start 0, stop 2, step 1. -/
theorem history_offsets_props_witness :
    get_history_indices ⟨0, 2, 1⟩ =
      Except.ok (pythonRange (-2 - 1) (-0) 1) ∧
    List.Chain' (fun x y => y - x = 1) (pythonRange (-2 - 1) (-0) 1) ∧
    (pythonRange (-2 - 1) (-0) 1).Pairwise (· < ·) ∧
    (∀ x ∈ pythonRange (-2 - 1) (-0) 1, x < 0) ∧
    (pythonRange (-2 - 1) (-0) 1).length = pythonRangeLen (-2 - 1) (-0) 1 :=
  history_offsets_props ⟨0, 2, 1⟩ (by decide) (by decide) (by decide) (by decide)

theorem get_num_channels_cons (r : Renderer) (rs : List Renderer) :
    get_num_channels (r :: rs) =
      r.numChannels * r.nHistorySteps + get_num_channels rs := by
  simp [get_num_channels]

theorem channelSlices_closed (rs : List Renderer) (start : ℕ) :
    channelSlices rs start =
      List.map
        (fun i : ℕ => (start + get_num_channels (rs.take i),
          start + get_num_channels (rs.take (i + 1))))
        (List.range rs.length) := by
  induction rs generalizing start with
  | nil => simp [channelSlices]
  | cons r rest ih =>
      rw [channelSlices, ih]
      simp only [List.length_cons, List.range_succ_eq_map, List.map_cons,
        List.map_map]
      refine congrArg₂ _ ?_ ?_
      · simp [get_num_channels, get_num_channels_cons]
      · apply List.map_congr_left
        intro i _
        simp only [Function.comp_apply, List.take_succ_cons,
          get_num_channels_cons, Prod.mk.injEq, Nat.succ_eq_add_one]
        omega

theorem get_num_channels_take_add (rs : List Renderer) (i d : ℕ) :
    get_num_channels (rs.take i) ≤ get_num_channels (rs.take (i + d)) := by
  rw [List.take_add]
  simp only [get_num_channels, List.map_append, List.sum_append]
  exact Nat.le_add_right _ _

theorem channelSlices_sizes_sum (rs : List Renderer) (start : ℕ) :
    ((channelSlices rs start).map (fun p => p.2 - p.1)).sum =
      get_num_channels rs := by
  induction rs generalizing start with
  | nil => simp [channelSlices, get_num_channels]
  | cons r rest ih =>
      rw [channelSlices]
      simp only [List.map_cons, List.sum_cons, ih, get_num_channels_cons]
      omega

/-- C2: the channel slices assigned by the accumulating pass of
`produce_features` are, in declaration order: slice `i` is the half-open
range from the total size of the first `i` renderers' blocks to that of the
first `i + 1`, so the first slice starts at 0, each slice's size is
`numChannels * nHistorySteps`, consecutive slices are contiguous, any two
slices are non-overlapping, and the sizes sum to the output channel count
`_get_num_channels`. -/
theorem channel_slices_props (rs : List Renderer) :
    channelSlices rs 0 =
      List.map
        (fun i : ℕ => (get_num_channels (rs.take i),
          get_num_channels (rs.take (i + 1))))
        (List.range rs.length) ∧
    (∀ i d : ℕ,
      get_num_channels (rs.take (i + 1)) ≤ get_num_channels (rs.take (i + 1 + d))) ∧
    ((channelSlices rs 0).map (fun p => p.2 - p.1)).sum = get_num_channels rs := by
  refine ⟨?_, fun i d => get_num_channels_take_add rs (i + 1) d, ?_⟩
  · rw [channelSlices_closed]
    simp
  · exact channelSlices_sizes_sum rs 0

theorem validate_time_grid_eq_ok_iff (tg : TimeGridParams) :
    validate_time_grid tg = Except.ok tg ↔ timeGridOk tg := by
  rw [validate_time_grid, timeGridOk, MAX_HISTORY_LENGTH]
  split_ifs <;> simp <;> omega

theorem validate_ok_val (tg : TimeGridParams) (v : TimeGridParams)
    (h : validate_time_grid tg = Except.ok v) : v = tg := by
  rw [validate_time_grid] at h
  split_ifs at h <;> simp_all

theorem isOkE_create_renderer (spec : RendererSpec) (tg : TimeGridParams)
    (tf : Affine2D) (hcat : spec.category ∈ recognizedCategories) :
    isOkE (create_renderer spec tg tf) = true ↔ tg.step ≠ 0 := by
  simp only [recognizedCategories, List.mem_cons, List.mem_singleton,
    List.not_mem_nil, or_false] at hcat
  rcases hcat with hc | hc | hc <;>
    by_cases hst : tg.step = 0 <;>
      simp [create_renderer, hc, get_history_indices, hst, isOkE,
        exc_bind_ok, exc_bind_err]

theorem isOkE_group (tg : TimeGridParams) (tf : Affine2D) (l : List RendererSpec)
    (hcat : ∀ s ∈ l, s.category ∈ recognizedCategories) :
    isOkE (createGroupRenderers tg tf l) = true ↔
      ∀ s ∈ l, timeGridOk tg ∧ tg.step ≠ 0 := by
  induction l with
  | nil => simp [createGroupRenderers, isOkE]
  | cons s rest ih =>
      have hcs : s.category ∈ recognizedCategories := hcat s (by simp)
      have hcr : ∀ x ∈ rest, x.category ∈ recognizedCategories :=
        fun x hx => hcat x (by simp [hx])
      simp only [createGroupRenderers]
      cases hv : validate_time_grid tg with
      | error e =>
          have hng : ¬ timeGridOk tg := by
            intro hg
            rw [(validate_time_grid_eq_ok_iff tg).mpr hg] at hv
            simp at hv
          rw [exc_bind_err]
          apply iff_of_false (by simp [isOkE])
          intro h
          exact hng (h s (by simp)).1
      | ok tgv =>
          have htgv : tg = tgv := (validate_ok_val tg tgv hv).symm
          subst htgv
          have htg : timeGridOk tg := (validate_time_grid_eq_ok_iff tg).mp hv
          rw [exc_bind_ok]
          cases hc : create_renderer s tg tf with
          | error e =>
              have hst : ¬ tg.step ≠ 0 := by
                intro hstep
                have hko := (isOkE_create_renderer s tg tf hcs).mpr hstep
                rw [hc] at hko
                simp [isOkE] at hko
              rw [exc_bind_err]
              apply iff_of_false (by simp [isOkE])
              intro h
              exact hst (h s (by simp)).2
          | ok r =>
              have hstep : tg.step ≠ 0 := by
                apply (isOkE_create_renderer s tg tf hcs).mp
                rw [hc]
                rfl
              rw [exc_bind_ok]
              have hpass :
                  isOkE (createGroupRenderers tg tf rest >>=
                    fun rs => Except.ok (r :: rs)) =
                    isOkE (createGroupRenderers tg tf rest) := by
                cases createGroupRenderers tg tf rest <;> rfl
              rw [hpass, ih hcr]
              constructor
              · intro h
                exact List.forall_mem_cons.mpr ⟨⟨htg, hstep⟩, h⟩
              · intro h
                exact (List.forall_mem_cons.mp h).2

theorem isOkE_renderers_list (tf : Affine2D) (groups : List RendererGroup)
    (hcat : ∀ g ∈ groups, ∀ s ∈ g.renderers, s.category ∈ recognizedCategories) :
    isOkE (create_renderers_list tf groups) = true ↔
      ∀ g ∈ groups, ∀ s ∈ g.renderers,
        timeGridOk g.time_grid_params ∧ g.time_grid_params.step ≠ 0 := by
  induction groups with
  | nil => simp [create_renderers_list, isOkE]
  | cons g rest ih =>
      have hcg := hcat g (by simp)
      have hcr : ∀ g' ∈ rest, ∀ s ∈ g'.renderers,
          s.category ∈ recognizedCategories :=
        fun g' hg' => hcat g' (by simp [hg'])
      simp only [create_renderers_list]
      cases hg : createGroupRenderers g.time_grid_params tf g.renderers with
      | error e =>
          rw [exc_bind_err]
          apply iff_of_false (by simp [isOkE])
          intro h
          have hko : isOkE (createGroupRenderers g.time_grid_params tf g.renderers) = true :=
            (isOkE_group _ _ _ hcg).mpr (fun s hs => h g (by simp) s hs)
          rw [hg] at hko
          simp [isOkE] at hko
      | ok rs1 =>
          rw [exc_bind_ok]
          have hpass :
              isOkE (create_renderers_list tf rest >>=
                fun rs2 => Except.ok (rs1 ++ rs2)) =
                isOkE (create_renderers_list tf rest) := by
            cases create_renderers_list tf rest <;> rfl
          rw [hpass, ih hcr]
          have hgrp : ∀ s ∈ g.renderers,
              timeGridOk g.time_grid_params ∧ g.time_grid_params.step ≠ 0 := by
            apply (isOkE_group _ _ _ hcg).mp
            rw [hg]
            rfl
          constructor
          · intro h
            exact List.forall_mem_cons.mpr ⟨hgrp, h⟩
          · intro h
            exact (List.forall_mem_cons.mp h).2

theorem isOkE_mkFeatureRenderer (cfg : RendererConfig) :
    isOkE (mkFeatureRenderer cfg) =
      isOkE (create_renderers_list
        (get_to_feature_map_transform cfg.feature_map_params)
        cfg.renderers_groups) := by
  simp only [mkFeatureRenderer]
  cases create_renderers_list
    (get_to_feature_map_transform cfg.feature_map_params)
    cfg.renderers_groups <;> rfl

/-- C5 counterexample: the configuration `cfgStepNeg`, whose only time grid
has step -1 (violating `step ≥ 1`), is accepted at construction time — the
source never validates the step — and produces an empty history-offset
sequence.  So construction failure is not equivalent to the claimed
five-condition validity predicate. -/
theorem step_below_one_not_rejected :
    (cfgStepNeg.renderers_groups.headD ⟨⟨0, 0, 0⟩, []⟩).time_grid_params.step < 1 ∧
    isOkE (mkFeatureRenderer cfgStepNeg) = true ∧
    get_history_indices
      (cfgStepNeg.renderers_groups.headD ⟨⟨0, 0, 0⟩, []⟩).time_grid_params =
      Except.ok [] :=
  ⟨by decide, rfl, rfl⟩

/-- C5 amended: for configurations whose category names are all recognized,
construction fails iff some group with at least one renderer has time-grid
parameters violating start ≥ 0, stop ≥ 0, start ≤ stop or stop+1 ≤ 25, or
has step = 0 (a range error).  `step ≥ 1` is not enforced: negative steps
are accepted (yielding an empty offset sequence). -/
theorem construction_ok_iff (cfg : RendererConfig)
    (hcat : ∀ g ∈ cfg.renderers_groups, ∀ s ∈ g.renderers,
      s.category ∈ recognizedCategories) :
    isOkE (mkFeatureRenderer cfg) = true ↔
      ∀ g ∈ cfg.renderers_groups, ∀ s ∈ g.renderers,
        timeGridOk g.time_grid_params ∧ g.time_grid_params.step ≠ 0 := by
  rw [isOkE_mkFeatureRenderer]
  exact isOkE_renderers_list _ _ hcat

/-- Witness for C5 at the concrete configuration `cfgW`. -/
theorem construction_ok_iff_witness :
    isOkE (mkFeatureRenderer cfgW) = true ↔
      ∀ g ∈ cfgW.renderers_groups, ∀ s ∈ g.renderers,
        timeGridOk g.time_grid_params ∧ g.time_grid_params.step ≠ 0 :=
  construction_ok_iff cfgW (by decide)

theorem get_history_indices_error_val (tg : TimeGridParams) (e : String)
    (h : get_history_indices tg = Except.error e) :
    e = "range() arg 3 must not be zero" := by
  rw [get_history_indices] at h
  split_ifs at h <;> simp_all

theorem create_renderer_nie_iff (spec : RendererSpec) (tg : TimeGridParams)
    (tf : Affine2D) :
    (create_renderer spec tg tf = Except.error "NotImplementedError") ↔
      spec.category ∉ recognizedCategories := by
  rw [create_renderer]
  split_ifs with h1 h2 h3
  · apply iff_of_false
    · intro hE
      cases hh : get_history_indices tg with
      | error e =>
          rw [hh, exc_bind_err] at hE
          have he := get_history_indices_error_val tg e hh
          rw [he] at hE
          simp at hE
      | ok hist =>
          rw [hh, exc_bind_ok] at hE
          simp at hE
    · simp [recognizedCategories, h1]
  · apply iff_of_false
    · intro hE
      cases hh : get_history_indices tg with
      | error e =>
          rw [hh, exc_bind_err] at hE
          have he := get_history_indices_error_val tg e hh
          rw [he] at hE
          simp at hE
      | ok hist =>
          rw [hh, exc_bind_ok] at hE
          simp at hE
    · simp [recognizedCategories, h2]
  · apply iff_of_false
    · intro hE
      cases hh : get_history_indices tg with
      | error e =>
          rw [hh, exc_bind_err] at hE
          have he := get_history_indices_error_val tg e hh
          rw [he] at hE
          simp at hE
      | ok hist =>
          rw [hh, exc_bind_ok] at hE
          simp at hE
    · simp [recognizedCategories, h3]
  · apply iff_of_true rfl
    simp only [recognizedCategories, List.mem_cons, List.mem_singleton,
      List.not_mem_nil, or_false]
    intro hmem
    rcases hmem with h | h | h
    · exact h1 h
    · exact h2 h
    · exact h3 h

theorem create_renderer_ok_cat (spec : RendererSpec) (tg : TimeGridParams)
    (tf : Affine2D) (r : Renderer) (h : create_renderer spec tg tf = Except.ok r) :
    spec.category ∈ recognizedCategories := by
  rw [create_renderer] at h
  split_ifs at h with h1 h2 h3
  · simp [recognizedCategories, h1]
  · simp [recognizedCategories, h2]
  · simp [recognizedCategories, h3]

theorem group_ok_cat (tg : TimeGridParams) (tf : Affine2D)
    (l : List RendererSpec) (rs : List Renderer)
    (h : createGroupRenderers tg tf l = Except.ok rs) :
    ∀ s ∈ l, s.category ∈ recognizedCategories := by
  induction l generalizing rs with
  | nil => simp
  | cons s rest ih =>
      simp only [createGroupRenderers] at h
      cases hv : validate_time_grid tg with
      | error e =>
          rw [hv, exc_bind_err] at h
          simp at h
      | ok tgv =>
          rw [hv, exc_bind_ok] at h
          cases hc : create_renderer s tgv tf with
          | error e =>
              rw [hc, exc_bind_err] at h
              simp at h
          | ok r =>
              rw [hc, exc_bind_ok] at h
              cases hrest : createGroupRenderers tg tf rest with
              | error e =>
                  rw [hrest, exc_bind_err] at h
                  simp at h
              | ok rs' =>
                  intro x hx
                  rcases List.mem_cons.mp hx with rfl | hmem
                  · exact create_renderer_ok_cat x tgv tf r hc
                  · exact ih rs' hrest x hmem

theorem list_ok_cat (tf : Affine2D) (groups : List RendererGroup)
    (rs : List Renderer) (h : create_renderers_list tf groups = Except.ok rs) :
    ∀ g ∈ groups, ∀ s ∈ g.renderers, s.category ∈ recognizedCategories := by
  induction groups generalizing rs with
  | nil => simp
  | cons g rest ih =>
      simp only [create_renderers_list] at h
      cases hg : createGroupRenderers g.time_grid_params tf g.renderers with
      | error e =>
          rw [hg, exc_bind_err] at h
          simp at h
      | ok rs1 =>
          rw [hg, exc_bind_ok] at h
          cases hr : create_renderers_list tf rest with
          | error e =>
              rw [hr, exc_bind_err] at h
              simp at h
          | ok rs2 =>
              intro g' hg' s hs
              rcases List.mem_cons.mp hg' with rfl | hmem
              · exact group_ok_cat _ tf _ rs1 hg s hs
              · exact ih rs2 hr g' hmem s hs

/-- C9: a renderer spec fails with `NotImplementedError` exactly when its
category name is not one of vehicles, pedestrians, road_graph; and any
configuration containing a renderer spec with an unrecognized category
fails at construction time — before any rendering occurs. -/
theorem unrecognized_category_fails (spec : RendererSpec) (tg : TimeGridParams)
    (tf : Affine2D) (cfg : RendererConfig) (g : RendererGroup) (s : RendererSpec) :
    (create_renderer spec tg tf = Except.error "NotImplementedError" ↔
      spec.category ∉ recognizedCategories) ∧
    (g ∈ cfg.renderers_groups → s ∈ g.renderers →
      s.category ∉ recognizedCategories →
      isOkE (mkFeatureRenderer cfg) = false) := by
  refine ⟨create_renderer_nie_iff spec tg tf, ?_⟩
  intro hg hs hbad
  cases hmk : mkFeatureRenderer cfg with
  | error e => rfl
  | ok fr =>
      exfalso
      simp only [mkFeatureRenderer] at hmk
      cases hcl : create_renderers_list
          (get_to_feature_map_transform cfg.feature_map_params)
          cfg.renderers_groups with
      | error e =>
          rw [hcl, exc_bind_err] at hmk
          simp at hmk
      | ok rs =>
          exact hbad (list_ok_cat _ _ rs hcl g hg s hs)

/-- Witness for C9 at the concrete unrecognized category "boats". -/
theorem unrecognized_category_fails_witness :
    (create_renderer specBoats ⟨0, 0, 1⟩ tfZ = Except.error "NotImplementedError" ↔
      specBoats.category ∉ recognizedCategories) ∧
    isOkE (mkFeatureRenderer cfgBadCat) = false :=
  ⟨(unrecognized_category_fails specBoats ⟨0, 0, 1⟩ tfZ cfgBadCat groupBoats specBoats).1,
   (unrecognized_category_fails specBoats ⟨0, 0, 1⟩ tfZ cfgBadCat groupBoats specBoats).2
     (by decide) (by decide) (by decide)⟩

/-- C8: when the request's track id is absent from the scene,
`produce_features` fails with the lookup error of
`get_latest_track_state_by_id` — the first statement of the call — and
returns no tensor. -/
theorem lookup_error_no_tensor (prim : Externals) (fr : FeatureRenderer)
    (scene : Scene) (request : PredictionRequest)
    (h : ∀ t ∈ scene.tracks, t.id ≠ request.track_id) :
    get_latest_track_state_by_id scene request.track_id =
      Except.error "Track id not found" ∧
    produce_features prim fr scene request =
      Except.error "Track id not found" := by
  have hfind : scene.tracks.find? (fun t => t.id = request.track_id) = none := by
    rw [List.find?_eq_none]
    intro t ht
    simp [h t ht]
  have hlook : get_latest_track_state_by_id scene request.track_id =
      Except.error "Track id not found" := by
    rw [get_latest_track_state_by_id, hfind]
  refine ⟨hlook, ?_⟩
  simp only [produce_features]
  rw [hlook, exc_bind_err]

/-- Witness for C8: `sceneW` has no track with id 9. -/
theorem lookup_error_no_tensor_witness :
    get_latest_track_state_by_id sceneW reqMissing.track_id =
      Except.error "Track id not found" ∧
    produce_features primW frW sceneW reqMissing =
      Except.error "Track id not found" :=
  lookup_error_no_tensor primW frW sceneW reqMissing (by decide)

/-- C1: on success `produce_features` returns a tensor whose shape is
`[C, rows, cols]` with `C = _get_num_channels` (the sum over renderers of
channel count times history-step count) and 32-bit float dtype, for every
scene and request — the shape depends on the configuration only — and the
tensor handed to the renderers is zero-initialized. -/
theorem produce_features_shape (cfg : RendererConfig) (fr : FeatureRenderer)
    (prim : Externals) (scene : Scene) (request : PredictionRequest)
    (out : FeatureMaps)
    (h1 : mkFeatureRenderer cfg = Except.ok fr)
    (h2 : produce_features prim fr scene request = Except.ok out) :
    out.shape = [get_num_channels fr.renderers,
      cfg.feature_map_params.rows, cfg.feature_map_params.cols] ∧
    out.dtype = DType.float32 ∧
    fr.num_channels = get_num_channels fr.renderers ∧
    (∀ c px, (create_feature_maps cfg.feature_map_params.rows
      cfg.feature_map_params.cols fr.num_channels).data c px = 0) := by
  simp only [mkFeatureRenderer] at h1
  cases hcl : create_renderers_list
      (get_to_feature_map_transform cfg.feature_map_params)
      cfg.renderers_groups with
  | error e =>
      rw [hcl, exc_bind_err] at h1
      simp at h1
  | ok rs =>
      rw [hcl, exc_bind_ok] at h1
      have hfr : fr = { feature_map_params := cfg.feature_map_params
                        to_feature_map_tf :=
                          get_to_feature_map_transform cfg.feature_map_params
                        renderers := rs
                        num_channels := get_num_channels rs } := by
        injection h1 with h1'
        exact h1'.symm
      have hnum : fr.num_channels = get_num_channels fr.renderers := by
        rw [hfr]
      have hfmp : fr.feature_map_params = cfg.feature_map_params := by
        rw [hfr]
      simp only [produce_features] at h2
      cases hlk : get_latest_track_state_by_id scene request.track_id with
      | error e =>
          rw [hlk, exc_bind_err] at h2
          simp at h2
      | ok track =>
          rw [hlk, exc_bind_ok] at h2
          cases hra : renderAll prim scene (get_to_track_frame_transform track)
              fr.renderers 0
              (create_feature_maps fr.feature_map_params.rows
                fr.feature_map_params.cols fr.num_channels).data with
          | error e =>
              rw [hra, exc_bind_err] at h2
              simp at h2
          | ok data =>
              rw [hra, exc_bind_ok] at h2
              have hout : out = FeatureMaps.mk
                  (create_feature_maps fr.feature_map_params.rows
                    fr.feature_map_params.cols fr.num_channels).shape
                  (create_feature_maps fr.feature_map_params.rows
                    fr.feature_map_params.cols fr.num_channels).dtype
                  data := by
                injection h2 with h2'
                exact h2'.symm
              refine ⟨?_, ?_, hnum, fun c px => rfl⟩
              · rw [hout]
                simp [create_feature_maps, hnum, hfmp]
              · rw [hout]

/-- Witness for C1 on the concrete scenario: a 2x2 map with one vehicles
occupancy renderer over one history step. -/
theorem produce_features_shape_witness :
    outW.shape = [get_num_channels frW.renderers,
      cfgW.feature_map_params.rows, cfgW.feature_map_params.cols] ∧
    outW.dtype = DType.float32 ∧
    frW.num_channels = get_num_channels frW.renderers ∧
    (∀ c px, (create_feature_maps cfgW.feature_map_params.rows
      cfgW.feature_map_params.cols frW.num_channels).data c px = 0) :=
  produce_features_shape cfgW frW primW sceneW reqW outW rfl rfl

theorem renderChannel_no_cover (covers : List Pixel → Pixel → Bool)
    (l : List (List Pixel × ℚ)) (pl : Plane) (P : Pixel)
    (h : ∀ q ∈ l, covers q.1 P = false) :
    renderChannelTracks covers l pl P = pl P := by
  induction l generalizing pl with
  | nil => rfl
  | cons q rest ih =>
      rw [renderChannelTracks, List.foldl_cons]
      have hr := ih (fillPoly covers pl q.1 q.2)
        (fun x hx => h x (by simp [hx]))
      rw [renderChannelTracks] at hr
      rw [hr]
      simp [fillPoly, h q (by simp)]

/-- C7: in the channel-filling loop of `TrackRendererBase.render`, when the
draw list decomposes as `l₁ ++ (poly, v) :: l₂` with `poly` covering pixel
`P` and no later entry covering `P`, the final value at `P` is `v` — the
later agent in draw order wins, with no blending.  For the vehicle renderer
the draw order is the frame's vehicle tracks with the ego track appended
last. -/
theorem overlap_last_write_wins (covers : List Pixel → Pixel → Bool)
    (l₁ l₂ : List (List Pixel × ℚ)) (poly : List Pixel) (v : ℚ)
    (pl : Plane) (P : Pixel)
    (hc : covers poly P = true)
    (hl : ∀ q ∈ l₂, covers q.1 P = false) :
    renderChannelTracks covers (l₁ ++ (poly, v) :: l₂) pl P = v ∧
    (∀ (scene : Scene) (ts_ind : ℤ),
      get_tracks_at_timestamp TrackKind.vehicle scene ts_ind =
        scene.past_vehicle_tracks ts_ind ++ [scene.past_ego_track ts_ind]) := by
  refine ⟨?_, fun scene ts_ind => rfl⟩
  rw [renderChannelTracks, List.foldl_append, List.foldl_cons]
  have hnc := renderChannel_no_cover covers l₂
    (fillPoly covers
      (List.foldl (fun pl pv => fillPoly covers pl pv.1 pv.2) pl l₁) poly v)
    P hl
  rw [renderChannelTracks] at hnc
  rw [hnc]
  simp [fillPoly, hc]

/-- Witness for C7: two polygons sharing pixel (0, 0); the later one's
value 5 wins. -/
theorem overlap_last_write_wins_witness :
    renderChannelTracks vertexCovers
      ([([((0 : ℤ), (0 : ℤ))], (3 : ℚ))] ++
        ([((0 : ℤ), (0 : ℤ)), ((1 : ℤ), (0 : ℤ))], (5 : ℚ)) :: [])
      (fun _ => 0) (0, 0) = 5 ∧
    (∀ (scene : Scene) (ts_ind : ℤ),
      get_tracks_at_timestamp TrackKind.vehicle scene ts_ind =
        scene.past_vehicle_tracks ts_ind ++ [scene.past_ego_track ts_ind]) :=
  overlap_last_write_wins vertexCovers [([((0 : ℤ), (0 : ℤ))], (3 : ℚ))] []
    [((0 : ℤ), (0 : ℤ)), ((1 : ℤ), (0 : ℤ))] 5 (fun _ => 0) (0, 0)
    (by decide) (by simp)

theorem vehicleNumChannels_filter (l : List String) :
    vehicleNumChannels l =
      vehicleNumChannels (l.filter (fun s => decide (s ∈ vehicleKnownFeatures))) := by
  simp [vehicleNumChannels, List.mem_filter, vehicleKnownFeatures]

theorem pedestrianNumChannels_filter (l : List String) :
    pedestrianNumChannels l =
      pedestrianNumChannels (l.filter (fun s => decide (s ∈ pedestrianKnownFeatures))) := by
  simp [pedestrianNumChannels, List.mem_filter, pedestrianKnownFeatures]

theorem roadGraphNumChannels_filter (l : List String) :
    roadGraphNumChannels l =
      roadGraphNumChannels (l.filter (fun s => decide (s ∈ roadGraphKnownFeatures))) := by
  simp [roadGraphNumChannels, crosswalkFeatureMapSize, laneFeatureMapSize,
    roadFeatureMapSize, List.mem_filter, roadGraphKnownFeatures]

theorem vehicleNumChannels_unknown_zero (l : List String)
    (h : ∀ s ∈ l, s ∉ vehicleKnownFeatures) : vehicleNumChannels l = 0 := by
  have h1 : "occupancy" ∉ l := fun hm => h _ hm (by simp [vehicleKnownFeatures])
  have h2 : "velocity" ∉ l := fun hm => h _ hm (by simp [vehicleKnownFeatures])
  have h3 : "acceleration" ∉ l := fun hm => h _ hm (by simp [vehicleKnownFeatures])
  have h4 : "yaw" ∉ l := fun hm => h _ hm (by simp [vehicleKnownFeatures])
  simp [vehicleNumChannels, h1, h2, h3, h4]

theorem pedestrianNumChannels_unknown_zero (l : List String)
    (h : ∀ s ∈ l, s ∉ pedestrianKnownFeatures) : pedestrianNumChannels l = 0 := by
  have h1 : "occupancy" ∉ l := fun hm => h _ hm (by simp [pedestrianKnownFeatures])
  have h2 : "velocity" ∉ l := fun hm => h _ hm (by simp [pedestrianKnownFeatures])
  simp [pedestrianNumChannels, h1, h2]

theorem roadGraphNumChannels_unknown_zero (l : List String)
    (h : ∀ s ∈ l, s ∉ roadGraphKnownFeatures) : roadGraphNumChannels l = 0 := by
  have h1 : "crosswalk_occupancy" ∉ l :=
    fun hm => h _ hm (by simp [roadGraphKnownFeatures])
  have h2 : "crosswalk_availability" ∉ l :=
    fun hm => h _ hm (by simp [roadGraphKnownFeatures])
  have h3 : "lane_availability" ∉ l :=
    fun hm => h _ hm (by simp [roadGraphKnownFeatures])
  have h4 : "lane_direction" ∉ l :=
    fun hm => h _ hm (by simp [roadGraphKnownFeatures])
  have h5 : "lane_occupancy" ∉ l :=
    fun hm => h _ hm (by simp [roadGraphKnownFeatures])
  have h6 : "lane_priority" ∉ l :=
    fun hm => h _ hm (by simp [roadGraphKnownFeatures])
  have h7 : "lane_speed_limit" ∉ l :=
    fun hm => h _ hm (by simp [roadGraphKnownFeatures])
  have h8 : "road_polygons" ∉ l :=
    fun hm => h _ hm (by simp [roadGraphKnownFeatures])
  simp [roadGraphNumChannels, crosswalkFeatureMapSize, laneFeatureMapSize,
    roadFeatureMapSize, h1, h2, h3, h4, h5, h6, h7, h8]

theorem fmVals_row_length (kind : TrackKind) (config : List String)
    (tf : Affine2D) (t : Track) :
    ((fmValueBlocks kind config tf).map (fun blk => blk t)).flatten.length =
      trackNumChannels kind config := by
  cases kind <;>
    simp only [fmValueBlocks, trackNumChannels, vehicleNumChannels,
      pedestrianNumChannels] <;>
    split_ifs <;>
      simp [occupancyValues, velocityValues, accelerationValues, yawValues]

theorem get_fm_values_width (kind : TrackKind) (config : List String)
    (tracks : List Track) (tf : Affine2D) (vals : List (List ℚ))
    (h : get_fm_values kind config tracks tf = Except.ok vals)
    (hne : ¬ tracks.isEmpty = true) :
    fmValuesWidth vals = trackNumChannels kind config := by
  rw [get_fm_values] at h
  split_ifs at h with hb
  injection h with h'
  cases tracks with
  | nil => simp at hne
  | cons t rest =>
      rw [← h']
      simp only [fmValuesWidth, List.map_cons, List.headD_cons]
      exact fmVals_row_length kind config tf t

theorem foldl_update_untouched (covers : List Pixel → Pixel → Bool)
    (num i : ℕ) (polys : List (List Pixel)) (vals : List (List ℚ))
    (l : List ℕ) (fm : FMData) (c : ℕ)
    (h : ∀ ch ∈ l, i * num + ch ≠ c) :
    (l.foldl
      (fun fm ch =>
        updateChannel fm (i * num + ch)
          (renderChannelTracks covers
            (polys.zip (vals.map (fun row => row.getD ch 0)))))
      fm) c = fm c := by
  induction l generalizing fm with
  | nil => rfl
  | cons ch rest ih =>
      rw [List.foldl_cons]
      rw [ih _ (fun x hx => h x (by simp [hx]))]
      have hne : c ≠ i * num + ch := fun he => h ch (by simp) he.symm
      simp [updateChannel, hne]

theorem renderTracksStep_untouched (covers : List Pixel → Pixel → Bool)
    (kind : TrackKind) (config : List String) (tfF tfT : Affine2D)
    (scene : Scene) (i : ℕ) (ts : ℤ) (fm fm' : FMData) (c : ℕ)
    (h : renderTracksStep covers kind config (trackNumChannels kind config)
      tfF tfT scene i ts fm = Except.ok fm')
    (hc : (i + 1) * trackNumChannels kind config ≤ c) :
    fm' c = fm c := by
  rw [renderTracksStep] at h
  split_ifs at h with hemp
  · injection h with h'
    rw [← h']
  · cases hv : get_fm_values kind config
        (get_tracks_at_timestamp kind scene ts) tfT with
    | error e =>
        rw [hv, exc_bind_err] at h
        exact Except.noConfusion h
    | ok vals =>
        rw [hv, exc_bind_ok] at h
        injection h with h'
        rw [← h']
        rw [renderStepWrite]
        apply foldl_update_untouched
        intro ch hch
        rw [List.mem_range] at hch
        have hw : fmValuesWidth vals = trackNumChannels kind config :=
          get_fm_values_width kind config _ tfT vals hv hemp
        have hmul : (i + 1) * trackNumChannels kind config =
            i * trackNumChannels kind config + trackNumChannels kind config := by
          ring
        omega

theorem trackRenderAux_untouched (covers : List Pixel → Pixel → Bool)
    (kind : TrackKind) (config : List String) (tfF tfT : Affine2D)
    (scene : Scene) (hist : List ℤ) (i : ℕ) (fm fm' : FMData) (c : ℕ)
    (h : trackRenderAux covers kind config (trackNumChannels kind config)
      tfF tfT scene i hist fm = Except.ok fm')
    (hc : (i + hist.length) * trackNumChannels kind config ≤ c) :
    fm' c = fm c := by
  induction hist generalizing i fm with
  | nil =>
      simp only [trackRenderAux] at h
      injection h with h'
      rw [← h']
  | cons ts rest ih =>
      simp only [trackRenderAux] at h
      cases hs : renderTracksStep covers kind config
          (trackNumChannels kind config) tfF tfT scene i ts fm with
      | error e =>
          rw [hs, exc_bind_err] at h
          exact Except.noConfusion h
      | ok fm1 =>
          rw [hs, exc_bind_ok] at h
          have hlen : (i + 1 + rest.length) * trackNumChannels kind config =
              (i + (ts :: rest).length) * trackNumChannels kind config := by
            simp only [List.length_cons]
            ring
          have h1 : fm' c = fm1 c := by
            apply ih (i + 1) fm1 h
            rw [hlen]
            exact hc
          have hstep : (i + 1) * trackNumChannels kind config ≤ c := by
            apply le_trans _ hc
            apply Nat.mul_le_mul_right
            simp only [List.length_cons]
            omega
          have h2 : fm1 c = fm c :=
            renderTracksStep_untouched covers kind config tfF tfT scene i ts
              fm fm1 c hs hstep
          rw [h1, h2]

/-- C10: unknown sub-feature names are silently ignored — construction of a
renderer succeeds for any sub-feature list, the channel counts depend only
on the known names (filtering out unknown names changes nothing, and a list
of only unknown names yields zero channels), and a track renderer's
rendering writes no channel outside the block determined by the known
sub-features. -/
theorem unknown_subfeatures_ignored (l : List String) (tg : TimeGridParams)
    (tf : Affine2D) :
    (tg.step ≠ 0 →
      create_renderer ⟨"vehicles", l⟩ tg tf =
        Except.ok (Renderer.vehicle l
          (pythonRange (-tg.stop - 1) (-tg.start) tg.step) tf)) ∧
    vehicleNumChannels l =
      vehicleNumChannels (l.filter (fun s => decide (s ∈ vehicleKnownFeatures))) ∧
    pedestrianNumChannels l =
      pedestrianNumChannels (l.filter (fun s => decide (s ∈ pedestrianKnownFeatures))) ∧
    roadGraphNumChannels l =
      roadGraphNumChannels (l.filter (fun s => decide (s ∈ roadGraphKnownFeatures))) ∧
    ((∀ s ∈ l, s ∉ vehicleKnownFeatures) → vehicleNumChannels l = 0) ∧
    ((∀ s ∈ l, s ∉ pedestrianKnownFeatures) → pedestrianNumChannels l = 0) ∧
    ((∀ s ∈ l, s ∉ roadGraphKnownFeatures) → roadGraphNumChannels l = 0) ∧
    (∀ (covers : List Pixel → Pixel → Bool) (kind : TrackKind) (hist : List ℤ)
      (tfF tfT : Affine2D) (scene : Scene) (fm fm' : FMData),
      trackRender covers kind l hist tfF scene tfT fm = Except.ok fm' →
      ∀ c : ℕ, hist.length * trackNumChannels kind l ≤ c → fm' c = fm c) := by
  refine ⟨?_, vehicleNumChannels_filter l, pedestrianNumChannels_filter l,
    roadGraphNumChannels_filter l, vehicleNumChannels_unknown_zero l,
    pedestrianNumChannels_unknown_zero l, roadGraphNumChannels_unknown_zero l,
    ?_⟩
  · intro hstep
    simp only [create_renderer, get_history_indices, if_neg hstep, if_pos rfl]
    rw [if_pos trivial, exc_bind_ok]
  · intro covers kind hist tfF tfT scene fm fm' h c hc
    rw [trackRender] at h
    apply trackRenderAux_untouched covers kind l
      (composeAffine tfF tfT) tfT scene hist 0 fm fm' c h
    simpa using hc

/-- Witness for C10 at the unknown sub-feature name "warp_drive". -/
theorem unknown_subfeatures_ignored_witness :
    create_renderer ⟨"vehicles", ["warp_drive"]⟩ ⟨0, 0, 1⟩ tfZ =
      Except.ok (Renderer.vehicle ["warp_drive"]
        (pythonRange (-0 - 1) (-0) 1) tfZ) ∧
    vehicleNumChannels ["warp_drive"] = 0 ∧
    fmP 0 = fmZero 0 :=
  ⟨(unknown_subfeatures_ignored ["warp_drive"] ⟨0, 0, 1⟩ tfZ).1 (by decide),
   (unknown_subfeatures_ignored ["warp_drive"] ⟨0, 0, 1⟩ tfZ).2.2.2.2.1 (by decide),
   (unknown_subfeatures_ignored ["warp_drive"] ⟨0, 0, 1⟩ tfZ).2.2.2.2.2.2.2
     vertexCovers TrackKind.pedestrian [-1] tfZ tfZ sceneW fmZero fmP rfl 0
     (by decide)⟩
